import Mathlib

/-!
# Verification of the Y.A.T. provider core

A shallow embedding, in Lean 4, of the provider-lifecycle core of the
Y.A.T. chat client: the vendor plugins' model listing and chat-message
translation (`plugins/anthropic_plugin.py`, `plugins/google_plugin.py`),
the dynamic plugin loader (`core/plugin_loader.py`), the environment-file
secret persistence (`ui_nicegui/provider_settings_dialog.py`,
`ui_nicegui/api_key_dialog.py`), the sidebar status reconciliation
(`ui_nicegui/sidebar.py`), and the save-and-reinitialize sequence of the
provider settings dialog.

Python strings are `String`, Python `None` is `Option.none`, Python dicts
(whose insertion order is semantically visible) are association lists with
Python-dict update semantics, and fallible operations return `Except`.
Python truthiness of an optional string (`if self.config.init_error:`) is
`truthyOpt`: `None` and the empty string are falsy.
-/

/-- Python truthiness of an optional string: `None` and `""` are falsy. -/
def truthyOpt : Option String → Bool
  | none => false
  | some s => s ≠ ""

/-- `lookup` on an association list (Python `d.get(k)` / `k in d`). -/
def alookup (k : String) : List (String × String) → Option String
  | [] => none
  | (k₁, v) :: t => if k₁ = k then some v else alookup k t

/-- Python dict assignment `d[k] = v`: updates the entry in place when the
key exists (keeping its position), otherwise appends at the end. -/
def aset (k v : String) : List (String × String) → List (String × String)
  | [] => [(k, v)]
  | (k₁, v₁) :: t => if k₁ = k then (k, v) :: t else (k₁, v₁) :: aset k v t

/-- Python dict deletion `del d[k]`. -/
def adel (k : String) : List (String × String) → List (String × String)
  | [] => []
  | (k₁, v₁) :: t => if k₁ = k then adel k t else (k₁, v₁) :: adel k t

/-- Whether `p` is a leading segment of `l` (helper for substring search). -/
def leadsList : List Char → List Char → Bool
  | [], _ => true
  | _ :: _, [] => false
  | a :: as, b :: bs => if a = b then leadsList as bs else false

/-- Whether `needle` occurs contiguously inside `hay` (Python `needle in hay`
on strings, viewed on the character lists). -/
def subList (needle : List Char) : List Char → Bool
  | [] => leadsList needle []
  | b :: bs => leadsList needle (b :: bs) || subList needle bs

/-- Python `needle in hay` for strings. -/
def hasSub (hay needle : String) : Bool := subList needle.data hay.data

/-- ASCII lower-casing of one character (Python `str.lower` on ASCII). -/
def lowerCh (c : Char) : Char :=
  if 65 ≤ c.toNat ∧ c.toNat ≤ 90 then Char.ofNat (c.toNat + 32) else c

/-- Python `s.lower()` (ASCII). -/
def strLower (s : String) : String := String.mk (s.data.map lowerCh)

/-- Split a character list at the first `'='`, Python `l.split('=', 1)`;
`none` when no `'='` occurs (Python `'=' not in l`). -/
def splitCharsAtEq : List Char → Option (List Char × List Char)
  | [] => none
  | c :: t =>
    if c = '=' then some ([], t)
    else match splitCharsAtEq t with
      | none => none
      | some (a, b) => some (c :: a, b)

/-- Python `l.split('=', 1)` on a string, `none` when `'=' not in l`. -/
def splitFirstEq (s : String) : Option (String × String) :=
  match splitCharsAtEq s.data with
  | none => none
  | some (a, b) => some (String.mk a, String.mk b)

/-- The whitespace characters removed by Python `str.strip()`. -/
def isSpaceCh (c : Char) : Bool :=
  c.toNat = 32 || c.toNat = 9 || c.toNat = 10 || c.toNat = 13
    || c.toNat = 11 || c.toNat = 12

/-- Drop leading whitespace characters. -/
def dropSpaces : List Char → List Char
  | [] => []
  | c :: t => if isSpaceCh c then dropSpaces t else c :: t

/-- Python `s.strip()`. -/
def strTrim (s : String) : String :=
  String.mk (List.reverse (dropSpaces (List.reverse (dropSpaces s.data))))

/-- Python `s.startswith('#')`. -/
def startsHash (s : String) : Bool :=
  match s.data with
  | [] => false
  | c :: _ => c = '#'

/-! ## Data model (`core/providers/types.py`)

The module `core/providers/types.py` itself is not in the repository
snapshot; the record shapes below follow spec §3 and the fields the
in-repository code reads and writes. -/

/-- Message role (spec §3: system | user | assistant). -/
inductive Role
  | system
  | user
  | assistant
deriving DecidableEq, Repr

/-- `msg.role.value` as used by `anthropic_plugin.stream_chat`. -/
def Role.value : Role → String
  | .system => "system"
  | .user => "user"
  | .assistant => "assistant"

/-- One conversation turn (spec §3). -/
structure Message where
  role : Role
  content : String
deriving DecidableEq, Repr

/-- One model offered by a provider (spec §3). The optional `provider_id`
mirrors `sidebar.load_models`, which reads it via
`getattr(m, 'provider_id', 'mock')`: the attribute may be absent. -/
structure ModelInfo where
  id : String
  name : String
  provider : String
  context_length : Nat
  supports_streaming : Bool
  provider_id : Option String := none
deriving DecidableEq, Repr

/-- Identity and mutable health state of one provider instance (spec §3):
`init_error` is `None` when healthy, `status` is the status enum encoded as
the strings the sidebar compares against (`'active'`, `'setup_needed'`,
`'disabled'`, `'error'`, `'offline'`). -/
structure ProviderConfig where
  name : String
  init_error : Option String := none
  status : String := "active"
deriving DecidableEq, Repr

/-! ## Anthropic provider (`plugins/anthropic_plugin.py`) -/

namespace AnthropicProvider

/-- The fields of `AnthropicProvider` that `get_available_models` and
`stream_chat` read: the config and whether `self.client` is set. -/
structure State where
  config : ProviderConfig
  hasClient : Bool
deriving DecidableEq, Repr

/-- One entry of `response.data` from `client.models.list()`. -/
structure RemoteModel where
  type : String
  id : String
  display_name : String
deriving DecidableEq, Repr

/-- `AnthropicProvider.get_available_models`. The remote call
`client.models.list()` is an external service; its outcome is the
parameter `remote` (either the listed data or a raised error). -/
def get_available_models (st : State) (remote : Except String (List RemoteModel)) :
    Except String (List ModelInfo) :=
  if truthyOpt st.config.init_error || !st.hasClient then .ok []
  else
    match remote with
    | .error e => .error e
    | .ok data =>
      let models := (data.filter (fun m => m.type = "model")).map (fun m =>
        { id := m.id
          name := m.display_name
          provider := "Anthropic"
          context_length := 200000
          supports_streaming := true })
      if models.isEmpty then .error "API returned no models"
      else .ok models

/-- One iteration of the message loop of `AnthropicProvider.stream_chat`:
a system turn overwrites `system_message`, any other turn is appended to
`anthropic_messages` as `{"role": msg.role.value, "content": msg.content}`. -/
def stepMsg (acc : Option String × List (String × String)) (msg : Message) :
    Option String × List (String × String) :=
  match msg.role with
  | .system => (some msg.content, acc.2)
  | _ => (acc.1, acc.2 ++ [(msg.role.value, msg.content)])

/-- The message loop of `AnthropicProvider.stream_chat`. Returns
`(system_message, anthropic_messages)`. -/
def collectMessages (messages : List Message) : Option String × List (String × String) :=
  messages.foldl stepMsg (none, [])

/-- The `system` entry of the request `kwargs`: present only when
`system_message` is truthy (`if system_message:`). -/
def systemSlot (messages : List Message) : Option String :=
  match (collectMessages messages).1 with
  | none => none
  | some c => if c = "" then none else some c

/-- The `messages` entry of the request `kwargs`. -/
def requestTurns (messages : List Message) : List (String × String) :=
  (collectMessages messages).2

end AnthropicProvider

/-! ## Google provider (`plugins/google_plugin.py`) -/

namespace GoogleProvider

/-- The fields of `GoogleProvider` that `get_available_models` and
`stream_chat` read: the config and `self.api_key` (`os.getenv` result,
`None` when unset is modelled as `none`). -/
structure State where
  config : ProviderConfig
  api_key : Option String
deriving DecidableEq, Repr

/-- One entry yielded by `genai.list_models()`. -/
structure RemoteModel where
  name : String
  display_name : String
  input_token_limit : Nat
  supported_generation_methods : List String
deriving DecidableEq, Repr

/-- `GoogleProvider.get_available_models`. The remote iterator
`genai.list_models()` is an external service; its outcome is the parameter
`remote`. -/
def get_available_models (st : State) (remote : Except String (List RemoteModel)) :
    Except String (List ModelInfo) :=
  if truthyOpt st.config.init_error || !truthyOpt st.api_key then .ok []
  else
    match remote with
    | .error e => .error e
    | .ok data =>
      .ok ((data.filter (fun m => m.supported_generation_methods.contains "generateContent")).map
        (fun m =>
          let mid := m.name.replace "models/" ""
          { id := mid
            name := if m.display_name ≠ "" then m.display_name else mid
            provider := "Google"
            context_length := m.input_token_limit
            supports_streaming := true }))

/-- The wire role of a non-system turn:
`role = "user" if msg.role == Role.USER else "model"`. -/
def wireRole : Role → String
  | .user => "user"
  | _ => "model"

/-- One iteration of the message loop of `GoogleProvider.stream_chat`:
a system turn overwrites `system_instruction`, any other turn is appended
to `gemini_messages` with the wire role and its content as the part text. -/
def stepMsg (acc : Option String × List (String × String)) (msg : Message) :
    Option String × List (String × String) :=
  match msg.role with
  | .system => (some msg.content, acc.2)
  | _ => (acc.1, acc.2 ++ [(wireRole msg.role, msg.content)])

/-- The message loop of `GoogleProvider.stream_chat`. Returns
`(system_instruction, gemini_messages)`. -/
def collectMessages (messages : List Message) : Option String × List (String × String) :=
  messages.foldl stepMsg (none, [])

/-- The `system_instruction` argument passed to `genai.GenerativeModel`
(passed through unconditionally, `None` when no system turn occurred). -/
def systemInstruction (messages : List Message) : Option String :=
  (collectMessages messages).1

/-- The `gemini_messages` list passed to `generate_content_async`. -/
def requestTurns (messages : List Message) : List (String × String) :=
  (collectMessages messages).2

end GoogleProvider

/-! ## Plugin loader (`core/plugin_loader.py`) -/

namespace PluginLoader

/-- What loading one plugin artifact does when actually attempted, the
external effects (filesystem, module execution, introspection) of
`load_plugin` collapsed into one outcome per name:
* `ok cls` — the file exists, executes, and introspection finds a conforming
  `BaseLLMProvider` subclass named `cls`;
* `fileMissing` — `plugin_path.exists()` is false;
* `specFail` — `spec_from_file_location` returns no usable spec;
* `execFail msg` — `exec_module` raises with message `msg`
  (the module was already entered into `sys.modules` at that point);
* `noClass` — the module executes but no conforming subclass is found. -/
inductive Outcome
  | ok (cls : String)
  | fileMissing (path : String)
  | specFail
  | execFail (msg : String)
  | noClass
deriving DecidableEq, Repr

/-- The loader's state: `loaded_plugins`, `plugin_errors` (both dicts keyed
by plugin name) and the set of plugin names registered in `sys.modules`. -/
structure State where
  loaded_plugins : List (String × String)
  plugin_errors : List (String × String)
  sysModules : List String
deriving DecidableEq, Repr

/-- The empty loader (fresh `PluginLoader(...)`, no modules registered). -/
def initState : State := ⟨[], [], []⟩

/-- `plugin_name in sys.modules` viewed on the key list. -/
def memName (n : String) : List String → Bool
  | [] => false
  | m :: t => if m = n then true else memName n t

/-- `sys.modules[plugin_name] = module` viewed on the key list. -/
def addModule (name : String) (ms : List String) : List String :=
  if memName name ms then ms else ms ++ [name]

/-- `PluginLoader.load_plugin`: returns the updated state and the result
(`some cls` for the provider class, `none` for Python `None`). -/
def load_plugin (outcome : String → Outcome) (st : State) (name : String) :
    State × Option String :=
  match alookup name st.loaded_plugins with
  | some cls => (st, some cls)
  | none =>
    match outcome name with
    | .ok cls =>
      ({ st with
          loaded_plugins := aset name cls st.loaded_plugins
          sysModules := addModule name st.sysModules }, some cls)
    | .fileMissing path =>
      ({ st with
          plugin_errors := aset name ("Plugin file not found: " ++ path) st.plugin_errors },
        none)
    | .specFail =>
      ({ st with
          plugin_errors := aset name "Failed to create module spec" st.plugin_errors },
        none)
    | .execFail msg =>
      ({ st with
          plugin_errors := aset name ("Error loading plugin: " ++ msg) st.plugin_errors
          sysModules := addModule name st.sysModules }, none)
    | .noClass =>
      ({ st with
          plugin_errors := aset name "No BaseLLMProvider subclass found" st.plugin_errors
          sysModules := addModule name st.sysModules }, none)

/-- `PluginLoader.load_all_plugins` on an already-discovered name list:
runs `load_plugin` over each name in order, accumulating successes and
failures, and returns `loaded_plugins`. -/
def load_all_plugins (outcome : String → Outcome) (st : State) (names : List String) :
    State :=
  names.foldl (fun s n => (load_plugin outcome s n).1) st

/-- Whether an outcome is a successful load. -/
def Outcome.isOk : Outcome → Bool
  | .ok _ => true
  | _ => false

/-- The `loaded_plugins` entry a name contributes (successful loads only). -/
def okPair (outcome : String → Outcome) (n : String) : Option (String × String) :=
  match outcome n with
  | .ok cls => some (n, cls)
  | _ => none

/-- The `plugin_errors` entry a name contributes (failed loads only). -/
def errPair (outcome : String → Outcome) (n : String) : Option (String × String) :=
  match outcome n with
  | .ok _ => none
  | .fileMissing p => some (n, "Plugin file not found: " ++ p)
  | .specFail => some (n, "Failed to create module spec")
  | .execFail m => some (n, "Error loading plugin: " ++ m)
  | .noClass => some (n, "No BaseLLMProvider subclass found")


end PluginLoader

/-! ## Secret persistence (`provider_settings_dialog.py`, `api_key_dialog.py`) -/

/-- The `.env`-parsing loop shared verbatim by
`ProviderSettingsDialog._update_env_file` and `APIKeyDialog._save_keys`:
strip each line, skip empties, comments and lines without `'='`, split the
rest at the first `'='` and store the stripped key/value in a dict. -/
def parseEnvLines (lines : List String) : List (String × String) :=
  lines.foldl
    (fun d line =>
      let l := strTrim line
      if l ≠ "" ∧ ¬ startsHash l then
        match splitFirstEq l with
        | none => d
        | some (k, v) => aset (strTrim k) (strTrim v) d
      else d)
    []

/-- The dict update step of `_update_env_file`: set the key when the value
is truthy, delete it when present otherwise. -/
def updateEnvDict (key value : String) (d : List (String × String)) :
    List (String × String) :=
  if value ≠ "" then aset key value d else adel key d

/-- Serialization of the env dict back to file lines (`f'{k}={v}\n'`). -/
def envDictLines (d : List (String × String)) : List String :=
  d.map (fun kv => kv.1 ++ "=" ++ kv.2)

/-- `ProviderSettingsDialog._update_env_file`: re-read the `.env` file,
update one key, write all entries back. -/
def update_env_file (key value : String) (lines : List String) : List String :=
  envDictLines (updateEnvDict key value (parseEnvLines lines))

/-- The in-memory environment update performed by
`ProviderSettingsDialog._save_settings` for one env-bound setting:
`os.environ[var] = value` when the value is truthy, otherwise
`del os.environ[var]` (guarded by membership). -/
def saveSettingsEnviron (var value : String) (environ : List (String × String)) :
    List (String × String) :=
  if value ≠ "" then aset var value environ else adel var environ

/-- The `.env` rewrite of `APIKeyDialog._save_keys`: parse the file once,
then for each of the three fixed keys either set the entered value or
delete the entry when the input is empty, and write the dict back. -/
def save_keys_file (lines : List String) (vOpenai vAnthropic vGemini : String) :
    List String :=
  let d := parseEnvLines lines
  let d := if vOpenai ≠ "" then aset "OPENAI_API_KEY" vOpenai d
           else adel "OPENAI_API_KEY" d
  let d := if vAnthropic ≠ "" then aset "ANTHROPIC_API_KEY" vAnthropic d
           else adel "ANTHROPIC_API_KEY" d
  let d := if vGemini ≠ "" then aset "GOOGLE_API_KEY" vGemini d
           else adel "GOOGLE_API_KEY" d
  envDictLines d

/-- The in-memory environment update of `APIKeyDialog._save_keys`: each
variable is assigned only when its input is truthy; an empty input leaves
`os.environ` untouched for that variable. -/
def save_keys_environ (environ : List (String × String))
    (vOpenai vAnthropic vGemini : String) : List (String × String) :=
  let e := if vOpenai ≠ "" then aset "OPENAI_API_KEY" vOpenai environ else environ
  let e := if vAnthropic ≠ "" then aset "ANTHROPIC_API_KEY" vAnthropic e else e
  if vGemini ≠ "" then aset "GOOGLE_API_KEY" vGemini e else e

/-! ## LLM manager (`core/llm_manager.py`, not in the snapshot) -/

/-- Modelled from the spec: `core/llm_manager.py` is not under `src/`, so a
registered provider instance is reduced to what its callers read — its
`config` (read by `sidebar.load_models`) and the model list its
`get_available_models` would currently return (spec §4.1). -/
structure ProviderInstance where
  config : ProviderConfig
  models : List ModelInfo
deriving DecidableEq, Repr

/-- Lookup of a provider instance by id: `providers.lookup i`. -/
def plookup (k : String) : List (String × ProviderInstance) → Option ProviderInstance
  | [] => none
  | (k₁, v) :: t => if k₁ = k then some v else plookup k t

/-- Modelled from the spec: the LLM manager (`core/llm_manager.py` is not
under `src/`) owns the provider registry and the single active
(provider id, model id) pair (spec §4.3). -/
structure LLMManager where
  providers : List (String × ProviderInstance)
  active_provider_id : Option String := none
  active_model_id : Option String := none
deriving DecidableEq, Repr

/-- Modelled from the spec: `LLMManager.get_available_models`
(`core/llm_manager.py` is not under `src/`) delegates to the active
provider only (spec §4.3) and — per the dropdown-key scenario of spec §8,
`"openai|<model_id>"` — returns that provider's models tagged with the
active provider's registry id as `provider_id`; with no (valid) active
provider it yields an empty list. -/
def LLMManager.get_available_models (mgr : LLMManager) : List ModelInfo :=
  match mgr.active_provider_id with
  | none => []
  | some i =>
    if i = "" then []
    else
      match plookup i mgr.providers with
      | none => []
      | some p => p.models.map (fun m => { m with provider_id := some i })

/-! ## Sidebar status reconciliation (`ui_nicegui/sidebar.py`) -/

namespace Sidebar

/-- One `_update_status_badge(state_group, text, icon, animate, action_hint)`
call: the discrete display state derived by `load_models`. -/
structure Badge where
  group : String
  text : String
  icon : String
  animate : Option String := none
  action_hint : String := ""
deriving DecidableEq, Repr

/-- The error-text classification branch of `Sidebar.load_models` (the
`if init_error:` arm): lower-case the message and classify by substring. -/
def classifyInitError (pName err : String) : Badge :=
  let errText := strLower err
  if hasSub errText "401" || hasSub errText "key" then
    ⟨"red", pName ++ ": Auth Failed", "lock", some "pulse", "🛠️"⟩
  else if hasSub errText "429" || hasSub errText "quota" then
    ⟨"red", pName ++ ": Quota Exceeded", "payments", none, "➜"⟩
  else if hasSub errText "connect" then
    ⟨"red", pName ++ ": No Connection", "wifi_off", some "pulse", "↻"⟩
  else
    ⟨"red", pName ++ ": Error", "bug_report", some "pulse", "↻"⟩

/-- `active_provider = self.llm_manager.providers.get(active_id) if active_id
else None`: Python truthiness makes `some ""` behave like no selection. -/
def activeLookup (providers : List (String × ProviderInstance))
    (activeId : Option String) : Option ProviderInstance :=
  match activeId with
  | none => none
  | some i => if i = "" then none else plookup i providers

/-- The status matrix of `Sidebar.load_models`: from the registry, the
active id and the model list fetched from the manager, derive the badge. -/
def statusBadge (providers : List (String × ProviderInstance))
    (activeId : Option String) (models : List ModelInfo) : Badge :=
  if providers.length = 0 then
    ⟨"critical", "Critical Failure", "dangerous", some "pulse", "➜"⟩
  else
    match activeLookup providers activeId with
    | none => ⟨"orange", "No Provider", "touch_app", some "pulse", "➜"⟩
    | some p =>
      let pName := p.config.name
      if truthyOpt p.config.init_error then
        classifyInitError pName (p.config.init_error.getD "")
      else if p.config.status = "setup_needed" then
        ⟨"orange", pName ++ ": Configure", "settings", some "pulse", "⚙️"⟩
      else if p.config.status = "active" then
        if models.isEmpty then
          ⟨"orange", pName ++ ": No Models", "folder_off", none, "↻"⟩
        else
          ⟨"green", "Active: " ++ pName, "circle", none, ""⟩
      else
        ⟨"red", pName ++ ": Unknown", "help", none, "?"⟩

/-- The badge `Sidebar.load_models` derives for a manager state. -/
def loadModelsBadge (mgr : LLMManager) : Badge :=
  statusBadge mgr.providers mgr.active_provider_id mgr.get_available_models

/-- The dropdown `options` dict built by `Sidebar.load_models`: keyed by
`f"{pid}|{m.id}"` with `pid = getattr(m, 'provider_id', 'mock')`, valued
`f"{m.name} ({m.provider})"`. -/
def dropdownOptions (models : List ModelInfo) : List (String × String) :=
  models.foldl
    (fun opts m =>
      aset (m.provider_id.getD "mock" ++ "|" ++ m.id)
        (m.name ++ " (" ++ m.provider ++ ")") opts)
    []

end Sidebar

/-! ## Save-and-reinitialize (`provider_settings_dialog.py`, step 2 of
`_save_settings.reinit_sequence`) -/

namespace ProviderSettingsDialog

/-- The model-selection step (step 2) of `reinit_sequence` inside
`_save_settings`: runs only when a provider activation was staged
(`self.pending_active_provider`) and that id resolves to a registered
instance. `fetch` is the outcome of the instance's
`get_available_models()` call (remote, hence a parameter). Returns the
new `(active_model_id, that provider's init_error)`. An empty fetched
list raises `ValueError("No models returned by provider. Please check API
Key/Settings.")`, caught by the same `except` that records fetch errors as
`"Model Fetch Error: ..."` on the provider's config. -/
def reinitModelSelection (pending : Option String) (registered : Bool)
    (active_model_id : Option String) (prevInitError : Option String)
    (fetch : Except String (List ModelInfo)) :
    Option String × Option String :=
  match pending with
  | none => (active_model_id, prevInitError)
  | some _ =>
    if !registered then (active_model_id, prevInitError)
    else
      match fetch with
      | .error e => (active_model_id, some ("Model Fetch Error: " ++ e))
      | .ok models =>
        match models with
        | [] =>
          (active_model_id,
            some "Model Fetch Error: No models returned by provider. Please check API Key/Settings.")
        | m :: rest =>
          let valid :=
            match active_model_id with
            | none => false
            | some mid =>
              if mid = "" then false
              else (m :: rest).any (fun mo => mo.id = mid)
          if valid then (active_model_id, none)
          else (some m.id, none)

end ProviderSettingsDialog

/-! ## Derived notions used by the statements -/

/-- The system-role messages of a conversation, in order. -/
def sysMsgs (msgs : List Message) : List Message :=
  msgs.filter (fun m => m.role = Role.system)

/-- The last element of a message list, `none` when empty. -/
def lastOf : List Message → Option Message
  | [] => none
  | m :: t =>
    match lastOf t with
    | some s => some s
    | none => some m

/-- The spec §8 scenario registry: one healthy provider registered under
id `"openai"` with three models, and that provider active. -/
def openaiScenario : LLMManager :=
  { providers :=
      [("openai",
        { config := { name := "OpenAI", init_error := none, status := "active" }
          models :=
            [{ id := "gpt-4", name := "GPT-4", provider := "OpenAI",
               context_length := 8192, supports_streaming := true },
             { id := "gpt-4o", name := "GPT-4o", provider := "OpenAI",
               context_length := 128000, supports_streaming := true },
             { id := "gpt-3.5-turbo", name := "GPT-3.5 Turbo", provider := "OpenAI",
               context_length := 16385, supports_streaming := true }] })]
    active_provider_id := some "openai"
    active_model_id := some "gpt-4" }

/-! ## Association-list lemmas -/

theorem alookup_aset (k v m : String) (d : List (String × String)) :
    alookup m (aset k v d) = if k = m then some v else alookup m d := by
  induction d with
  | nil => simp [aset, alookup]
  | cons hd tl ih =>
    obtain ⟨k₁, v₁⟩ := hd
    by_cases h : k₁ = k
    · subst h
      by_cases hm : k₁ = m <;> simp [aset, alookup, hm]
    · by_cases hm : k₁ = m
      · subst hm
        have hk : ¬ k = k₁ := fun he => h he.symm
        simp [aset, alookup, h, hk]
      · simp [aset, alookup, h, hm, ih]

theorem alookup_adel (k m : String) (d : List (String × String)) :
    alookup m (adel k d) = if k = m then none else alookup m d := by
  induction d with
  | nil => simp [adel, alookup]
  | cons hd tl ih =>
    obtain ⟨k₁, v₁⟩ := hd
    by_cases h : k₁ = k
    · subst h
      by_cases hm : k₁ = m
      · subst hm
        simpa [adel, alookup] using ih
      · simp [adel, alookup, hm, ih]
    · by_cases hm : k₁ = m
      · subst hm
        have hk : ¬ k = k₁ := fun he => h he.symm
        simp [adel, alookup, h, hk]
      · simp [adel, alookup, h, hm, ih]

theorem aset_of_alookup_none (k v : String) (d : List (String × String))
    (h : alookup k d = none) : aset k v d = d ++ [(k, v)] := by
  induction d with
  | nil => simp [aset]
  | cons hd tl ih =>
    obtain ⟨k₁, v₁⟩ := hd
    by_cases hk : k₁ = k
    · subst hk
      simp [alookup] at h
    · simp [alookup, hk] at h
      simp [aset, hk, ih h]

/-! ## Plugin-loader lemmas -/

namespace PluginLoader

theorem load_all_spec (outcome : String → Outcome) (names : List String) :
    ∀ st : State, names.Nodup →
    (∀ n ∈ names, alookup n st.loaded_plugins = none) →
    (∀ n ∈ names, alookup n st.plugin_errors = none) →
    (load_all_plugins outcome st names).loaded_plugins
        = st.loaded_plugins ++ names.filterMap (okPair outcome)
      ∧ (load_all_plugins outcome st names).plugin_errors
        = st.plugin_errors ++ names.filterMap (errPair outcome) := by
  induction names with
  | nil => intro st _ _ _; simp [load_all_plugins]
  | cons n rest ih =>
    intro st hnd hfreshL hfreshE
    have hndr : rest.Nodup := hnd.of_cons
    have hnn : n ∉ rest := (List.nodup_cons.mp hnd).1
    have hLn : alookup n st.loaded_plugins = none := hfreshL n (List.mem_cons_self n rest)
    have hEn : alookup n st.plugin_errors = none := hfreshE n (List.mem_cons_self n rest)
    have hstep : load_all_plugins outcome st (n :: rest)
        = load_all_plugins outcome (load_plugin outcome st n).1 rest := rfl
    cases hout : outcome n with
    | ok cls =>
      have hst : (load_plugin outcome st n).1
          = { st with
              loaded_plugins := aset n cls st.loaded_plugins
              sysModules := addModule n st.sysModules } := by
        simp [load_plugin, hLn, hout]
      have hfl : ∀ m ∈ rest, alookup m (aset n cls st.loaded_plugins) = none := by
        intro m hm
        have hne : n ≠ m := fun he => hnn (he ▸ hm)
        rw [alookup_aset]
        simp [hne]
        exact hfreshL m (List.mem_cons_of_mem n hm)
      have := ih ((load_plugin outcome st n).1) hndr
        (by rw [hst]; exact hfl)
        (by rw [hst]; intro m hm; exact hfreshE m (List.mem_cons_of_mem n hm))
      rw [hstep]
      rcases this with ⟨h1, h2⟩
      constructor
      · rw [h1, hst]
        simp [aset_of_alookup_none n cls _ hLn, List.filterMap_cons, okPair, hout,
          List.append_assoc]
      · rw [h2, hst]
        simp [List.filterMap_cons, errPair, hout]
    | fileMissing p =>
      have hst : (load_plugin outcome st n).1
          = { st with
              plugin_errors := aset n ("Plugin file not found: " ++ p) st.plugin_errors } := by
        simp [load_plugin, hLn, hout]
      have hfe : ∀ m ∈ rest,
          alookup m (aset n ("Plugin file not found: " ++ p) st.plugin_errors) = none := by
        intro m hm
        have hne : n ≠ m := fun he => hnn (he ▸ hm)
        rw [alookup_aset]
        simp [hne]
        exact hfreshE m (List.mem_cons_of_mem n hm)
      have := ih ((load_plugin outcome st n).1) hndr
        (by rw [hst]; intro m hm; exact hfreshL m (List.mem_cons_of_mem n hm))
        (by rw [hst]; exact hfe)
      rw [hstep]
      rcases this with ⟨h1, h2⟩
      constructor
      · rw [h1, hst]
        simp [List.filterMap_cons, okPair, hout]
      · rw [h2, hst]
        simp [aset_of_alookup_none n _ _ hEn, List.filterMap_cons, errPair, hout,
          List.append_assoc]
    | specFail =>
      have hst : (load_plugin outcome st n).1
          = { st with
              plugin_errors := aset n "Failed to create module spec" st.plugin_errors } := by
        simp [load_plugin, hLn, hout]
      have hfe : ∀ m ∈ rest,
          alookup m (aset n "Failed to create module spec" st.plugin_errors) = none := by
        intro m hm
        have hne : n ≠ m := fun he => hnn (he ▸ hm)
        rw [alookup_aset]
        simp [hne]
        exact hfreshE m (List.mem_cons_of_mem n hm)
      have := ih ((load_plugin outcome st n).1) hndr
        (by rw [hst]; intro m hm; exact hfreshL m (List.mem_cons_of_mem n hm))
        (by rw [hst]; exact hfe)
      rw [hstep]
      rcases this with ⟨h1, h2⟩
      constructor
      · rw [h1, hst]
        simp [List.filterMap_cons, okPair, hout]
      · rw [h2, hst]
        simp [aset_of_alookup_none n _ _ hEn, List.filterMap_cons, errPair, hout,
          List.append_assoc]
    | execFail msg =>
      have hst : (load_plugin outcome st n).1
          = { st with
              plugin_errors := aset n ("Error loading plugin: " ++ msg) st.plugin_errors
              sysModules := addModule n st.sysModules } := by
        simp [load_plugin, hLn, hout]
      have hfe : ∀ m ∈ rest,
          alookup m (aset n ("Error loading plugin: " ++ msg) st.plugin_errors) = none := by
        intro m hm
        have hne : n ≠ m := fun he => hnn (he ▸ hm)
        rw [alookup_aset]
        simp [hne]
        exact hfreshE m (List.mem_cons_of_mem n hm)
      have := ih ((load_plugin outcome st n).1) hndr
        (by rw [hst]; intro m hm; exact hfreshL m (List.mem_cons_of_mem n hm))
        (by rw [hst]; exact hfe)
      rw [hstep]
      rcases this with ⟨h1, h2⟩
      constructor
      · rw [h1, hst]
        simp [List.filterMap_cons, okPair, hout]
      · rw [h2, hst]
        simp [aset_of_alookup_none n _ _ hEn, List.filterMap_cons, errPair, hout,
          List.append_assoc]
    | noClass =>
      have hst : (load_plugin outcome st n).1
          = { st with
              plugin_errors := aset n "No BaseLLMProvider subclass found" st.plugin_errors
              sysModules := addModule n st.sysModules } := by
        simp [load_plugin, hLn, hout]
      have hfe : ∀ m ∈ rest,
          alookup m (aset n "No BaseLLMProvider subclass found" st.plugin_errors) = none := by
        intro m hm
        have hne : n ≠ m := fun he => hnn (he ▸ hm)
        rw [alookup_aset]
        simp [hne]
        exact hfreshE m (List.mem_cons_of_mem n hm)
      have := ih ((load_plugin outcome st n).1) hndr
        (by rw [hst]; intro m hm; exact hfreshL m (List.mem_cons_of_mem n hm))
        (by rw [hst]; exact hfe)
      rw [hstep]
      rcases this with ⟨h1, h2⟩
      constructor
      · rw [h1, hst]
        simp [List.filterMap_cons, okPair, hout]
      · rw [h2, hst]
        simp [aset_of_alookup_none n _ _ hEn, List.filterMap_cons, errPair, hout,
          List.append_assoc]

theorem map_fst_filterMap_okPair (outcome : String → Outcome) (names : List String) :
    (names.filterMap (okPair outcome)).map Prod.fst
      = names.filter (fun n => (outcome n).isOk) := by
  induction names with
  | nil => rfl
  | cons n rest ih =>
    cases hout : outcome n <;>
      simp [List.filterMap_cons, List.filter_cons, okPair, Outcome.isOk, hout, ih]

theorem map_fst_filterMap_errPair (outcome : String → Outcome) (names : List String) :
    (names.filterMap (errPair outcome)).map Prod.fst
      = names.filter (fun n => !(outcome n).isOk) := by
  induction names with
  | nil => rfl
  | cons n rest ih =>
    cases hout : outcome n <;>
      simp [List.filterMap_cons, List.filter_cons, errPair, Outcome.isOk, hout, ih]

end PluginLoader

/-! ### Message-translation lemmas -/

namespace AnthropicProvider

theorem collect_fold_anthropic (msgs : List Message) :
    ∀ (s₀ : Option String) (l₀ : List (String × String)),
    List.foldl stepMsg (s₀, l₀) msgs
      = ((match lastOf (sysMsgs msgs) with
          | some s => some s.content
          | none => s₀),
        l₀ ++ (msgs.filter (fun m => m.role ≠ Role.system)).map
          (fun m => (m.role.value, m.content))) := by
  induction msgs with
  | nil => intro s₀ l₀; simp [sysMsgs, lastOf]
  | cons m t ih =>
    intro s₀ l₀
    cases hr : m.role with
    | system =>
      have hstep : stepMsg (s₀, l₀) m = (some m.content, l₀) := by
        simp [stepMsg, hr]
      have hsys : sysMsgs (m :: t) = m :: sysMsgs t := by
        simp [sysMsgs, List.filter_cons, hr]
      have hfil : (m :: t).filter (fun x => x.role ≠ Role.system)
          = t.filter (fun x => x.role ≠ Role.system) := by
        simp [List.filter_cons, hr]
      rw [List.foldl_cons, hstep, ih, hsys, hfil]
      cases hl : lastOf (sysMsgs t) <;> simp [lastOf, hl]
    | user =>
      have hstep : stepMsg (s₀, l₀) m = (s₀, l₀ ++ [(m.role.value, m.content)]) := by
        simp [stepMsg, hr]
      have hsys : sysMsgs (m :: t) = sysMsgs t := by
        simp [sysMsgs, List.filter_cons, hr]
      have hfil : (m :: t).filter (fun x => x.role ≠ Role.system)
          = m :: t.filter (fun x => x.role ≠ Role.system) := by
        simp [List.filter_cons, hr]
      rw [List.foldl_cons, hstep, ih, hsys, hfil]
      simp
    | assistant =>
      have hstep : stepMsg (s₀, l₀) m = (s₀, l₀ ++ [(m.role.value, m.content)]) := by
        simp [stepMsg, hr]
      have hsys : sysMsgs (m :: t) = sysMsgs t := by
        simp [sysMsgs, List.filter_cons, hr]
      have hfil : (m :: t).filter (fun x => x.role ≠ Role.system)
          = m :: t.filter (fun x => x.role ≠ Role.system) := by
        simp [List.filter_cons, hr]
      rw [List.foldl_cons, hstep, ih, hsys, hfil]
      simp

theorem requestTurns_eq_anthropic (msgs : List Message) :
    requestTurns msgs
      = (msgs.filter (fun m => m.role ≠ Role.system)).map
          (fun m => (m.role.value, m.content)) := by
  have := collect_fold_anthropic msgs none []
  simp [requestTurns, collectMessages, this]

theorem collect_system_eq (msgs : List Message) :
    (collectMessages msgs).1
      = match lastOf (sysMsgs msgs) with
        | some s => some s.content
        | none => none := by
  have := collect_fold_anthropic msgs none []
  simp [collectMessages, this]

end AnthropicProvider

namespace GoogleProvider

theorem collect_fold_google (msgs : List Message) :
    ∀ (s₀ : Option String) (l₀ : List (String × String)),
    List.foldl stepMsg (s₀, l₀) msgs
      = ((match lastOf (sysMsgs msgs) with
          | some s => some s.content
          | none => s₀),
        l₀ ++ (msgs.filter (fun m => m.role ≠ Role.system)).map
          (fun m => (wireRole m.role, m.content))) := by
  induction msgs with
  | nil => intro s₀ l₀; simp [sysMsgs, lastOf]
  | cons m t ih =>
    intro s₀ l₀
    cases hr : m.role with
    | system =>
      have hstep : stepMsg (s₀, l₀) m = (some m.content, l₀) := by
        simp [stepMsg, hr]
      have hsys : sysMsgs (m :: t) = m :: sysMsgs t := by
        simp [sysMsgs, List.filter_cons, hr]
      have hfil : (m :: t).filter (fun x => x.role ≠ Role.system)
          = t.filter (fun x => x.role ≠ Role.system) := by
        simp [List.filter_cons, hr]
      rw [List.foldl_cons, hstep, ih, hsys, hfil]
      cases hl : lastOf (sysMsgs t) <;> simp [lastOf, hl]
    | user =>
      have hstep : stepMsg (s₀, l₀) m = (s₀, l₀ ++ [(wireRole m.role, m.content)]) := by
        simp [stepMsg, hr]
      have hsys : sysMsgs (m :: t) = sysMsgs t := by
        simp [sysMsgs, List.filter_cons, hr]
      have hfil : (m :: t).filter (fun x => x.role ≠ Role.system)
          = m :: t.filter (fun x => x.role ≠ Role.system) := by
        simp [List.filter_cons, hr]
      rw [List.foldl_cons, hstep, ih, hsys, hfil]
      simp
    | assistant =>
      have hstep : stepMsg (s₀, l₀) m = (s₀, l₀ ++ [(wireRole m.role, m.content)]) := by
        simp [stepMsg, hr]
      have hsys : sysMsgs (m :: t) = sysMsgs t := by
        simp [sysMsgs, List.filter_cons, hr]
      have hfil : (m :: t).filter (fun x => x.role ≠ Role.system)
          = m :: t.filter (fun x => x.role ≠ Role.system) := by
        simp [List.filter_cons, hr]
      rw [List.foldl_cons, hstep, ih, hsys, hfil]
      simp

theorem requestTurns_eq_google (msgs : List Message) :
    requestTurns msgs
      = (msgs.filter (fun m => m.role ≠ Role.system)).map
          (fun m => (wireRole m.role, m.content)) := by
  have := collect_fold_google msgs none []
  simp [requestTurns, collectMessages, this]

theorem systemInstruction_eq (msgs : List Message) :
    systemInstruction msgs
      = match lastOf (sysMsgs msgs) with
        | some s => some s.content
        | none => none := by
  have := collect_fold_google msgs none []
  simp [systemInstruction, collectMessages, this]

end GoogleProvider

/-! ## Claims -/

/-- C1 (counterexample): the claim fails as stated. With `init_error` set to
the non-null value `""` and a working client,
`AnthropicProvider.get_available_models` returns a non-empty model list:
the guard `if self.config.init_error or not self.client:` tests Python
truthiness, not non-nullness, so an empty-string error message does not
block the fetch. -/
theorem c1_counterexample :
    AnthropicProvider.get_available_models
        ⟨⟨"Anthropic", some "", "active"⟩, true⟩
        (.ok [⟨"model", "m1", "Claude"⟩])
      = .ok [⟨"m1", "Claude", "Anthropic", 200000, true, none⟩]
    ∧ (some "" : Option String) ≠ none
    ∧ ([⟨"m1", "Claude", "Anthropic", 200000, true, none⟩] : List ModelInfo) ≠ [] :=
  ⟨rfl, by decide, by decide⟩

/-- C1 (amended): for every provider whose config has `init_error` set to a
non-empty (Python-truthy) message, `get_available_models` returns the empty
sequence — never a non-empty one — for both the Anthropic and the Google
provider, whatever the remote service would have answered. -/
theorem c1_amended (e : String) (he : e ≠ "")
    (ast : AnthropicProvider.State) (gst : GoogleProvider.State)
    (ra : Except String (List AnthropicProvider.RemoteModel))
    (rg : Except String (List GoogleProvider.RemoteModel))
    (ha : ast.config.init_error = some e) (hg : gst.config.init_error = some e) :
    AnthropicProvider.get_available_models ast ra = .ok []
    ∧ GoogleProvider.get_available_models gst rg = .ok [] := by
  constructor
  · simp [AnthropicProvider.get_available_models, ha, truthyOpt, he]
  · simp [GoogleProvider.get_available_models, hg, truthyOpt, he]

/-- C1 (witness): the amended claim at a concrete broken provider. -/
theorem c1_witness :
    AnthropicProvider.get_available_models
        ⟨⟨"Anthropic", some "boom", "error"⟩, true⟩ (.ok [])
      = .ok []
    ∧ GoogleProvider.get_available_models
        ⟨⟨"Google", some "boom", "error"⟩, some "k"⟩ (.ok [])
      = .ok [] :=
  c1_amended "boom" (by decide) _ _ _ _ rfl rfl

/-- C2: status reconciliation precedence. An empty registry yields the
"critical failure" badge regardless of active id, error state, status enum
and model list; a non-empty registry with no active selection (or an
active id that is not a registry key) yields the "no provider" badge
regardless of the remaining inputs. -/
theorem c2_registry_precedence (providers : List (String × ProviderInstance))
    (activeId : Option String) (models : List ModelInfo) :
    (providers = [] →
      Sidebar.statusBadge providers activeId models
        = ⟨"critical", "Critical Failure", "dangerous", some "pulse", "➜"⟩)
    ∧ (providers ≠ [] →
      (activeId = none ∨ ∃ i, activeId = some i ∧ plookup i providers = none) →
      Sidebar.statusBadge providers activeId models
        = ⟨"orange", "No Provider", "touch_app", some "pulse", "➜"⟩) := by
  constructor
  · intro h
    subst h
    rfl
  · intro hne hact
    have hlen : ¬ providers.length = 0 := by
      simpa [List.length_eq_zero] using hne
    have hlook : Sidebar.activeLookup providers activeId = none := by
      rcases hact with h | ⟨i, hi, hpl⟩
      · simp [Sidebar.activeLookup, h]
      · subst hi
        by_cases hi0 : i = "" <;> simp [Sidebar.activeLookup, hi0, hpl]
    simp [Sidebar.statusBadge, hlen, hlook]

/-- C2 (witness): both branches at concrete inputs. -/
theorem c2_witness :
    Sidebar.statusBadge [] (some "x")
        [⟨"m", "M", "P", 1, true, none⟩]
      = ⟨"critical", "Critical Failure", "dangerous", some "pulse", "➜"⟩
    ∧ Sidebar.statusBadge [("p", ⟨⟨"P", some "boom", "error"⟩, []⟩)] (some "q") []
      = ⟨"orange", "No Provider", "touch_app", some "pulse", "➜"⟩ :=
  ⟨(c2_registry_precedence [] (some "x") [⟨"m", "M", "P", 1, true, none⟩]).1 rfl,
    (c2_registry_precedence [("p", ⟨⟨"P", some "boom", "error"⟩, []⟩)] (some "q") []).2
      (by decide) (Or.inr ⟨"q", rfl, by decide⟩)⟩

/-- C3 (counterexample): the claim fails as stated. With the active
provider's `init_error` set to the non-null value `""` (status `'active'`,
models present) the sidebar shows the healthy green badge, not any of the
init-error classifications: `if init_error:` tests Python truthiness, so an
empty-string error message does not take precedence over the status-enum
states. -/
theorem c3_counterexample :
    Sidebar.statusBadge [("p", ⟨⟨"P", some "", "active"⟩, []⟩)] (some "p")
        [⟨"m", "M", "P", 1, true, none⟩]
      = ⟨"green", "Active: P", "circle", none, ""⟩
    ∧ (some "" : Option String) ≠ none
    ∧ Sidebar.statusBadge [("p", ⟨⟨"P", some "", "active"⟩, []⟩)] (some "p")
        [⟨"m", "M", "P", 1, true, none⟩]
      ≠ Sidebar.classifyInitError "P" "" :=
  ⟨rfl, by decide, by decide⟩

/-- C3 (amended): for every active provider whose `init_error` is a
non-empty (Python-truthy) message, the badge is the substring
classification of the lower-cased message — auth failure on "401" or
"key", quota on "429" or "quota", connectivity on "connect", generic
otherwise — and this classification takes precedence over the status-enum
states whatever `status` and the model list are; in particular the message
"401 unauthorized" classifies as auth failure. -/
theorem c3_amended (providers : List (String × ProviderInstance))
    (activeId : Option String) (models : List ModelInfo)
    (p : ProviderInstance) (e : String)
    (hfind : Sidebar.activeLookup providers activeId = some p)
    (hne : providers ≠ [])
    (herr : p.config.init_error = some e) (he : e ≠ "") :
    Sidebar.statusBadge providers activeId models
      = Sidebar.classifyInitError p.config.name e
    ∧ (hasSub (strLower e) "401" = true ∨ hasSub (strLower e) "key" = true →
        Sidebar.classifyInitError p.config.name e
          = ⟨"red", p.config.name ++ ": Auth Failed", "lock", some "pulse", "🛠️"⟩)
    ∧ (hasSub (strLower e) "401" = false → hasSub (strLower e) "key" = false →
        hasSub (strLower e) "429" = true ∨ hasSub (strLower e) "quota" = true →
        Sidebar.classifyInitError p.config.name e
          = ⟨"red", p.config.name ++ ": Quota Exceeded", "payments", none, "➜"⟩)
    ∧ (hasSub (strLower e) "401" = false → hasSub (strLower e) "key" = false →
        hasSub (strLower e) "429" = false → hasSub (strLower e) "quota" = false →
        hasSub (strLower e) "connect" = true →
        Sidebar.classifyInitError p.config.name e
          = ⟨"red", p.config.name ++ ": No Connection", "wifi_off", some "pulse", "↻"⟩)
    ∧ (hasSub (strLower e) "401" = false → hasSub (strLower e) "key" = false →
        hasSub (strLower e) "429" = false → hasSub (strLower e) "quota" = false →
        hasSub (strLower e) "connect" = false →
        Sidebar.classifyInitError p.config.name e
          = ⟨"red", p.config.name ++ ": Error", "bug_report", some "pulse", "↻"⟩)
    ∧ (e = "401 unauthorized" →
        Sidebar.statusBadge providers activeId models
          = ⟨"red", p.config.name ++ ": Auth Failed", "lock", some "pulse", "🛠️"⟩) := by
  have hlen : ¬ providers.length = 0 := by
    simpa [List.length_eq_zero] using hne
  have hmain : Sidebar.statusBadge providers activeId models
      = Sidebar.classifyInitError p.config.name e := by
    simp [Sidebar.statusBadge, hlen, hfind, herr, truthyOpt, he]
  refine ⟨hmain, ?_, ?_, ?_, ?_, ?_⟩
  · intro h
    rcases h with h | h <;> simp [Sidebar.classifyInitError, h]
  · intro h1 h2 h
    rcases h with h | h <;> simp [Sidebar.classifyInitError, h1, h2, h]
  · intro h1 h2 h3 h4 h
    simp [Sidebar.classifyInitError, h1, h2, h3, h4, h]
  · intro h1 h2 h3 h4 h5
    simp [Sidebar.classifyInitError, h1, h2, h3, h4, h5]
  · intro heq
    subst heq
    have hc : (hasSub (strLower "401 unauthorized") "401"
        || hasSub (strLower "401 unauthorized") "key") = true := by decide
    rw [hmain]
    simp [Sidebar.classifyInitError, hc]

/-- C3 (witness): the "401 unauthorized" scenario at a concrete registry. -/
theorem c3_witness :
    Sidebar.statusBadge
        [("openai", ⟨⟨"OpenAI", some "401 unauthorized", "error"⟩, []⟩)]
        (some "openai") []
      = ⟨"red", "OpenAI: Auth Failed", "lock", some "pulse", "🛠️"⟩ :=
  (c3_amended [("openai", ⟨⟨"OpenAI", some "401 unauthorized", "error"⟩, []⟩)]
      (some "openai") [] ⟨⟨"OpenAI", some "401 unauthorized", "error"⟩, []⟩
      "401 unauthorized" (by decide) (by decide) rfl (by decide)).2.2.2.2.2 rfl

/-- C4: after the save-and-reinitialize sequence with a staged active
provider: if the previously selected `active_model_id` is absent from the
newly fetched (non-empty) model list, the new `active_model_id` is the id
of the first fetched model; if no activation step runs (no staged
provider), or the staged provider is the already-active one and the
previously selected (non-empty) model id is still present in the refreshed
list, `active_model_id` is unchanged. -/
theorem c4_model_selection (pid : String) (m : ModelInfo) (rest : List ModelInfo)
    (amid : Option String) (prevErr : Option String) :
    ((∀ mo ∈ m :: rest, amid ≠ some mo.id) →
      (ProviderSettingsDialog.reinitModelSelection (some pid) true amid prevErr
          (.ok (m :: rest))).1
        = some m.id)
    ∧ (∀ (registered : Bool) (fetch : Except String (List ModelInfo)),
        ProviderSettingsDialog.reinitModelSelection none registered amid prevErr fetch
          = (amid, prevErr))
    ∧ (∀ mid, amid = some mid → mid ≠ "" →
        ((m :: rest).any fun mo => mo.id = mid) = true →
        (ProviderSettingsDialog.reinitModelSelection (some pid) true amid prevErr
            (.ok (m :: rest))).1
          = amid) := by
  refine ⟨?_, ?_, ?_⟩
  · intro habsent
    cases amid with
    | none => simp [ProviderSettingsDialog.reinitModelSelection]
    | some mid =>
      by_cases h0 : mid = ""
      · simp [ProviderSettingsDialog.reinitModelSelection, h0]
      · have hany : ((m :: rest).any fun mo => mo.id = mid) = false := by
          rw [List.any_eq_false]
          intro mo hmo
          have := habsent mo hmo
          simpa [eq_comm] using this
        simp [ProviderSettingsDialog.reinitModelSelection, h0, hany]
  · intro registered fetch
    rfl
  · intro mid hmid h0 hany
    subst hmid
    simp [ProviderSettingsDialog.reinitModelSelection, h0, hany]

/-- C4 (witness): switching to provider "b" whose fetched models do not
contain the previous model selects the first fetched model; keeping the
provider with the previous model still listed leaves the selection. -/
theorem c4_witness :
    (ProviderSettingsDialog.reinitModelSelection (some "b") true (some "m1") none
        (.ok [⟨"n1", "N1", "B", 1, true, none⟩, ⟨"n2", "N2", "B", 1, true, none⟩])).1
      = some "n1"
    ∧ (ProviderSettingsDialog.reinitModelSelection (some "a") true (some "m1") none
        (.ok [⟨"m1", "M1", "A", 1, true, none⟩, ⟨"m2", "M2", "A", 1, true, none⟩])).1
      = some "m1" :=
  ⟨(c4_model_selection "b" ⟨"n1", "N1", "B", 1, true, none⟩
        [⟨"n2", "N2", "B", 1, true, none⟩] (some "m1") none).1 (by decide),
    (c4_model_selection "a" ⟨"m1", "M1", "A", 1, true, none⟩
        [⟨"m2", "M2", "A", 1, true, none⟩] (some "m1") none).2.2 "m1" rfl (by decide)
      (by decide)⟩

/-- C5: over any duplicate-free discovered name list, `load_all_plugins`
starting from a fresh loader produces a success map whose keys are exactly
the names whose artifact loads to a conforming provider class (so a load
failure of one plugin never prevents the remaining plugins from loading)
and an error map whose keys are exactly the failing names; hence exactly N
success entries and M error messages. The embedding is a total function:
no exception escapes. -/
theorem c5_load_all_counts (outcome : String → PluginLoader.Outcome)
    (names : List String) (hnd : names.Nodup) :
    (PluginLoader.load_all_plugins outcome PluginLoader.initState
        names).loaded_plugins.map Prod.fst
      = names.filter (fun n => (outcome n).isOk)
    ∧ (PluginLoader.load_all_plugins outcome PluginLoader.initState
        names).plugin_errors.map Prod.fst
      = names.filter (fun n => !(outcome n).isOk)
    ∧ (PluginLoader.load_all_plugins outcome PluginLoader.initState
        names).loaded_plugins.length
      = (names.filter (fun n => (outcome n).isOk)).length
    ∧ (PluginLoader.load_all_plugins outcome PluginLoader.initState
        names).plugin_errors.length
      = (names.filter (fun n => !(outcome n).isOk)).length := by
  obtain ⟨h1, h2⟩ := PluginLoader.load_all_spec outcome names PluginLoader.initState hnd
    (fun n _ => rfl) (fun n _ => rfl)
  have k1 : (PluginLoader.load_all_plugins outcome PluginLoader.initState
      names).loaded_plugins = names.filterMap (PluginLoader.okPair outcome) := by
    simpa [PluginLoader.initState] using h1
  have k2 : (PluginLoader.load_all_plugins outcome PluginLoader.initState
      names).plugin_errors = names.filterMap (PluginLoader.errPair outcome) := by
    simpa [PluginLoader.initState] using h2
  have m1 : (PluginLoader.load_all_plugins outcome PluginLoader.initState
      names).loaded_plugins.map Prod.fst = names.filter (fun n => (outcome n).isOk) := by
    rw [k1, PluginLoader.map_fst_filterMap_okPair]
  have m2 : (PluginLoader.load_all_plugins outcome PluginLoader.initState
      names).plugin_errors.map Prod.fst = names.filter (fun n => !(outcome n).isOk) := by
    rw [k2, PluginLoader.map_fst_filterMap_errPair]
  refine ⟨m1, m2, ?_, ?_⟩
  · rw [← m1, List.length_map]
  · rw [← m2, List.length_map]

/-- C5 (witness): two conforming artifacts and one whose module raises on
execution: two successes, one recorded error. -/
theorem c5_witness :
    (PluginLoader.load_all_plugins
        (fun n => if n = "broken_plugin" then .execFail "boom" else .ok "Provider")
        PluginLoader.initState
        ["anthropic_plugin", "broken_plugin", "google_plugin"]).loaded_plugins.length
      = 2
    ∧ (PluginLoader.load_all_plugins
        (fun n => if n = "broken_plugin" then .execFail "boom" else .ok "Provider")
        PluginLoader.initState
        ["anthropic_plugin", "broken_plugin", "google_plugin"]).plugin_errors.length
      = 1 :=
  ⟨((c5_load_all_counts
      (fun n => if n = "broken_plugin" then .execFail "boom" else .ok "Provider")
      ["anthropic_plugin", "broken_plugin", "google_plugin"]
      (by decide)).2.2.1).trans (by decide),
    ((c5_load_all_counts
      (fun n => if n = "broken_plugin" then .execFail "boom" else .ok "Provider")
      ["anthropic_plugin", "broken_plugin", "google_plugin"]
      (by decide)).2.2.2).trans (by decide)⟩

/-- C6 (counterexample): the claim fails as stated. When `load_plugin`
fails because the executed module exports no conforming class, the success
map is indeed unchanged, but the module object registered at
`sys.modules[plugin_name] = module` (before `exec_module`) is left behind:
a module for the plugin name remains in the global registry. -/
theorem c6_counterexample :
    (PluginLoader.load_plugin (fun _ => .noClass)
        PluginLoader.initState "p").1.loaded_plugins = []
    ∧ (PluginLoader.load_plugin (fun _ => .noClass)
        PluginLoader.initState "p").2 = none
    ∧ PluginLoader.memName "p"
        (PluginLoader.load_plugin (fun _ => .noClass)
          PluginLoader.initState "p").1.sysModules
      = true :=
  ⟨rfl, rfl, by decide⟩

/-- C6 (amended): a failing `load_plugin` leaves the success map unchanged
and returns `None`; however the plugin's module registration in
`sys.modules` persists whenever the module was entered there before the
failure (execution failure or no conforming class found) — only the
file-missing and spec-creation failures leave `sys.modules` untouched. -/
theorem c6_amended (outcome : String → PluginLoader.Outcome)
    (st : PluginLoader.State) (name : String)
    (hcache : alookup name st.loaded_plugins = none)
    (hfail : (outcome name).isOk = false) :
    (PluginLoader.load_plugin outcome st name).1.loaded_plugins = st.loaded_plugins
    ∧ (PluginLoader.load_plugin outcome st name).2 = none
    ∧ (∀ msg, outcome name = .execFail msg →
        PluginLoader.memName name
            (PluginLoader.load_plugin outcome st name).1.sysModules
          = true)
    ∧ (outcome name = .noClass →
        PluginLoader.memName name
            (PluginLoader.load_plugin outcome st name).1.sysModules
          = true)
    ∧ (∀ path, outcome name = .fileMissing path →
        (PluginLoader.load_plugin outcome st name).1.sysModules = st.sysModules)
    ∧ (outcome name = .specFail →
        (PluginLoader.load_plugin outcome st name).1.sysModules = st.sysModules) := by
  have hmem : ∀ ms : List String,
      PluginLoader.memName name (PluginLoader.addModule name ms) = true := by
    intro ms
    by_cases h : PluginLoader.memName name ms
    · simp [PluginLoader.addModule, h]
    · have happ : ∀ l : List String, PluginLoader.memName name (l ++ [name]) = true := by
        intro l
        induction l with
        | nil => simp [PluginLoader.memName]
        | cons a t ih =>
          by_cases ha : a = name <;> simp [PluginLoader.memName, ha, ih]
      simp [PluginLoader.addModule, h, happ]
  cases hout : outcome name with
  | ok cls => rw [hout] at hfail; simp [PluginLoader.Outcome.isOk] at hfail
  | fileMissing p =>
    refine ⟨?_, ?_, ?_, ?_, ?_, ?_⟩ <;>
      simp [PluginLoader.load_plugin, hcache, hout]
  | specFail =>
    refine ⟨?_, ?_, ?_, ?_, ?_, ?_⟩ <;>
      simp [PluginLoader.load_plugin, hcache, hout]
  | execFail msg =>
    refine ⟨?_, ?_, ?_, ?_, ?_, ?_⟩ <;>
      simp [PluginLoader.load_plugin, hcache, hout, hmem]
  | noClass =>
    refine ⟨?_, ?_, ?_, ?_, ?_, ?_⟩ <;>
      simp [PluginLoader.load_plugin, hcache, hout, hmem]

/-- C6 (witness): the amended claim at a concrete no-conforming-class
failure. -/
theorem c6_witness :
    (PluginLoader.load_plugin (fun _ => PluginLoader.Outcome.noClass)
        ⟨[], [], []⟩ "q").1.loaded_plugins = []
    ∧ PluginLoader.memName "q"
        (PluginLoader.load_plugin (fun _ => PluginLoader.Outcome.noClass)
          ⟨[], [], []⟩ "q").1.sysModules
      = true :=
  ⟨(c6_amended (fun _ => PluginLoader.Outcome.noClass) ⟨[], [], []⟩ "q" rfl rfl).1,
    (c6_amended (fun _ => PluginLoader.Outcome.noClass) ⟨[], [], []⟩ "q" rfl rfl).2.2.2.1
      rfl⟩

/-- C7 (counterexample): the claim fails as stated for the API-key dialog
save path. With the secret file containing `OPENAI_API_KEY=old` and that
variable set in the process environment, saving an empty value removes the
line from the persisted file, but `_save_keys` only assigns environment
variables for truthy inputs: the in-memory variable is left in place, not
removed. -/
theorem c7_counterexample :
    save_keys_file ["OPENAI_API_KEY=old"] "" "" "" = []
    ∧ save_keys_environ [("OPENAI_API_KEY", "old")] "" "" ""
      = [("OPENAI_API_KEY", "old")]
    ∧ alookup "OPENAI_API_KEY" (save_keys_environ [("OPENAI_API_KEY", "old")] "" "" "")
      = some "old" :=
  ⟨by decide, rfl, rfl⟩

/-- C7 (amended): rewriting the environment file preserves every entry
whose key differs from the saved key, replaces the matching key's value,
and removes the key entirely when the saved value is empty; the provider
settings dialog updates the in-memory environment to the same effect,
including removal on empty values — but the API-key dialog save path
updates the in-memory environment only for non-empty values and leaves a
previously set variable in place when the saved value is empty. -/
theorem c7_amended (lines : List String) (key value k₂ : String)
    (environ : List (String × String)) (hk : k₂ ≠ key) :
    alookup k₂ (updateEnvDict key value (parseEnvLines lines))
      = alookup k₂ (parseEnvLines lines)
    ∧ (value ≠ "" →
        alookup key (updateEnvDict key value (parseEnvLines lines)) = some value)
    ∧ (value = "" →
        alookup key (updateEnvDict key value (parseEnvLines lines)) = none)
    ∧ update_env_file key value lines
        = envDictLines (updateEnvDict key value (parseEnvLines lines))
    ∧ (value ≠ "" → alookup key (saveSettingsEnviron key value environ) = some value)
    ∧ (value = "" → alookup key (saveSettingsEnviron key value environ) = none)
    ∧ alookup k₂ (saveSettingsEnviron key value environ) = alookup k₂ environ
    ∧ save_keys_environ environ "" "" "" = environ := by
  have hk' : ¬ key = k₂ := fun h => hk h.symm
  refine ⟨?_, ?_, ?_, rfl, ?_, ?_, ?_, rfl⟩
  · by_cases hv : value = ""
    · simp [updateEnvDict, hv, alookup_adel, hk']
    · simp [updateEnvDict, hv, alookup_aset, hk']
  · intro hv
    simp [updateEnvDict, hv, alookup_aset]
  · intro hv
    simp [updateEnvDict, hv, alookup_adel]
  · intro hv
    simp [saveSettingsEnviron, hv, alookup_aset]
  · intro hv
    simp [saveSettingsEnviron, hv, alookup_adel]
  · by_cases hv : value = ""
    · simp [saveSettingsEnviron, hv, alookup_adel, hk']
    · simp [saveSettingsEnviron, hv, alookup_aset, hk']

/-- C7 (witness): the amended claim at the `OPENAI_API_KEY=old` scenario:
the unrelated entry survives, the matching line and the settings-dialog
in-memory variable are removed, and the API-key dialog leaves the
in-memory variable in place. -/
theorem c7_witness :
    alookup "OTHER"
        (updateEnvDict "OPENAI_API_KEY" ""
          (parseEnvLines ["OPENAI_API_KEY=old", "OTHER=keep"]))
      = alookup "OTHER" (parseEnvLines ["OPENAI_API_KEY=old", "OTHER=keep"])
    ∧ alookup "OPENAI_API_KEY"
        (updateEnvDict "OPENAI_API_KEY" ""
          (parseEnvLines ["OPENAI_API_KEY=old", "OTHER=keep"]))
      = none
    ∧ alookup "OPENAI_API_KEY"
        (saveSettingsEnviron "OPENAI_API_KEY" "" [("OPENAI_API_KEY", "old")])
      = none
    ∧ save_keys_environ [("OPENAI_API_KEY", "old")] "" "" ""
      = [("OPENAI_API_KEY", "old")] := by
  have h := c7_amended ["OPENAI_API_KEY=old", "OTHER=keep"] "OPENAI_API_KEY" ""
    "OTHER" [("OPENAI_API_KEY", "old")] (by decide)
  exact ⟨h.1, h.2.2.1 rfl, h.2.2.2.2.2.1 rfl, h.2.2.2.2.2.2.2⟩

/-- C8: for every message sequence, both providers hoist system-role
messages out of the turn sequence — the vendor payload turns are exactly
the non-system messages, translated, in their original relative order —
and when the sequence contains exactly one system message (with non-empty
content, `if system_message:` being a truthiness test), its content lands
in the vendor-specific system-instruction slot. -/
theorem c8_system_extraction_order (msgs : List Message) (s : Message) :
    AnthropicProvider.requestTurns msgs
      = (msgs.filter (fun m => m.role ≠ Role.system)).map
          (fun m => (m.role.value, m.content))
    ∧ GoogleProvider.requestTurns msgs
      = (msgs.filter (fun m => m.role ≠ Role.system)).map
          (fun m => (GoogleProvider.wireRole m.role, m.content))
    ∧ (sysMsgs msgs = [s] → s.content ≠ "" →
        AnthropicProvider.systemSlot msgs = some s.content
        ∧ GoogleProvider.systemInstruction msgs = some s.content) := by
  refine ⟨AnthropicProvider.requestTurns_eq_anthropic msgs,
    GoogleProvider.requestTurns_eq_google msgs, ?_⟩
  intro hone hc
  have h1 := AnthropicProvider.collect_system_eq msgs
  have h2 := GoogleProvider.systemInstruction_eq msgs
  rw [hone] at h1 h2
  simp [lastOf] at h1 h2
  constructor
  · simp [AnthropicProvider.systemSlot, h1, hc]
  · exact h2

/-- C8 (witness): a system turn followed by a user and an assistant turn:
the system content fills the vendor slots, the remaining turns keep their
order and translation. -/
theorem c8_witness :
    AnthropicProvider.requestTurns
        [⟨.system, "be brief"⟩, ⟨.user, "hi"⟩, ⟨.assistant, "hello"⟩]
      = [("user", "hi"), ("assistant", "hello")]
    ∧ GoogleProvider.requestTurns
        [⟨.system, "be brief"⟩, ⟨.user, "hi"⟩, ⟨.assistant, "hello"⟩]
      = [("user", "hi"), ("model", "hello")]
    ∧ AnthropicProvider.systemSlot
        [⟨.system, "be brief"⟩, ⟨.user, "hi"⟩, ⟨.assistant, "hello"⟩]
      = some "be brief"
    ∧ GoogleProvider.systemInstruction
        [⟨.system, "be brief"⟩, ⟨.user, "hi"⟩, ⟨.assistant, "hello"⟩]
      = some "be brief" := by
  have h := c8_system_extraction_order
    [⟨.system, "be brief"⟩, ⟨.user, "hi"⟩, ⟨.assistant, "hello"⟩]
    ⟨.system, "be brief"⟩
  have h3 := h.2.2 (by decide) (by decide)
  exact ⟨h.1.trans (by decide), h.2.1.trans (by decide), h3.1, h3.2⟩

/-- C9: in the spec §8 scenario — registry holding one healthy provider
under id "openai" with three models, that provider active — the sidebar
derives the green "Active" badge and the model dropdown holds exactly
three entries keyed `"openai|<model_id>"`. (`core/llm_manager.py` is not
in the snapshot; the manager's delegation to the active provider and the
`provider_id` tagging are modelled from the spec.) -/
theorem c9_openai_scenario :
    Sidebar.loadModelsBadge openaiScenario
      = ⟨"green", "Active: OpenAI", "circle", none, ""⟩
    ∧ Sidebar.dropdownOptions openaiScenario.get_available_models
      = [("openai|gpt-4", "GPT-4 (OpenAI)"),
         ("openai|gpt-4o", "GPT-4o (OpenAI)"),
         ("openai|gpt-3.5-turbo", "GPT-3.5 Turbo (OpenAI)")]
    ∧ (Sidebar.dropdownOptions openaiScenario.get_available_models).length = 3
    ∧ (Sidebar.dropdownOptions openaiScenario.get_available_models).map Prod.fst
      = openaiScenario.get_available_models.map (fun m => "openai|" ++ m.id) :=
  ⟨rfl, rfl, rfl, rfl⟩

/-- C10: when the message sequence holds more than one system-role
message, only the last one reaches the vendor: both system-instruction
slots carry exactly the last system message's content (non-empty for the
Anthropic truthiness check), no earlier system message's content is
slotted, and no system message at all appears among the forwarded turns
(the Anthropic payload never contains a `"system"`-role entry, and the
turns of both payloads are exactly the translated non-system messages). -/
theorem c10_last_system_wins (msgs : List Message) (slast : Message)
    (_hmany : 1 < (sysMsgs msgs).length)
    (hlast : lastOf (sysMsgs msgs) = some slast)
    (hc : slast.content ≠ "") :
    AnthropicProvider.systemSlot msgs = some slast.content
    ∧ GoogleProvider.systemInstruction msgs = some slast.content
    ∧ AnthropicProvider.requestTurns msgs
      = (msgs.filter (fun m => m.role ≠ Role.system)).map
          (fun m => (m.role.value, m.content))
    ∧ GoogleProvider.requestTurns msgs
      = (msgs.filter (fun m => m.role ≠ Role.system)).map
          (fun m => (GoogleProvider.wireRole m.role, m.content))
    ∧ (∀ c, ("system", c) ∉ AnthropicProvider.requestTurns msgs) := by
  have h1 := AnthropicProvider.collect_system_eq msgs
  have h2 := GoogleProvider.systemInstruction_eq msgs
  rw [hlast] at h1 h2
  refine ⟨?_, h2, AnthropicProvider.requestTurns_eq_anthropic msgs,
    GoogleProvider.requestTurns_eq_google msgs, ?_⟩
  · simp [AnthropicProvider.systemSlot, h1, hc]
  · intro c hmem
    rw [AnthropicProvider.requestTurns_eq_anthropic] at hmem
    rcases List.mem_map.mp hmem with ⟨m, hmf, hme⟩
    have hra : m.role.value = "system" := congrArg Prod.fst hme
    have hns : ¬ m.role = Role.system := by
      have := List.mem_filter.mp hmf
      simpa using this.2
    cases hr : m.role with
    | system => exact hns hr
    | user => rw [hr] at hra; exact absurd hra (by decide)
    | assistant => rw [hr] at hra; exact absurd hra (by decide)

/-- C10 (witness): two system messages: the second one's content fills the
slots, the first is nowhere in the forwarded request. -/
theorem c10_witness :
    AnthropicProvider.systemSlot
        [⟨.system, "first"⟩, ⟨.user, "hi"⟩, ⟨.system, "second"⟩]
      = some "second"
    ∧ GoogleProvider.systemInstruction
        [⟨.system, "first"⟩, ⟨.user, "hi"⟩, ⟨.system, "second"⟩]
      = some "second"
    ∧ AnthropicProvider.requestTurns
        [⟨.system, "first"⟩, ⟨.user, "hi"⟩, ⟨.system, "second"⟩]
      = [("user", "hi")] := by
  have h := c10_last_system_wins
    [⟨.system, "first"⟩, ⟨.user, "hi"⟩, ⟨.system, "second"⟩]
    ⟨.system, "second"⟩ (by decide) (by decide) (by decide)
  exact ⟨h.1, h.2.1, h.2.2.1.trans (by decide)⟩
